import Mathlib

/-!
Shallow embedding of `sm2_7_db_search_reader.py`: the record extraction,
deduplication and classification pipeline that parses STRmix database-search
result documents, classifies each comparison row as a true contributor or
non-contributor, filters by an LR cutoff, and assembles flat records.

Python floats that only ever enter order comparisons and equality at small
literal values are modelled as `Rat`; Python dicts and sets are modelled as
association lists / lists with first-match lookup; exceptions are modelled
with `Except`.
-/

/-- One `stdResult` element of a document: the profile case number attribute,
the compared sample label attribute, and the nested LR value. -/
structure StdResult where
  caseNumber : String
  sample : String
  lr : Rat
deriving DecidableEq, Repr

/-- Constant `LRCUTOFF = -1` (line 80): the lower limit of reported LRs. -/
def LRCUTOFF : Rat := -1

/-- The static `mixDictionary` (lines 82-91) mapping mixture codes to the
5-slot contributor label lists. -/
def mixDictionary : List (String × List String) :=
  [("M1-2", ["12M", "14F", "", "", ""]),
   ("M1-3", ["9F", "21F", "22M", "", ""]),
   ("M1-4", ["3F", "5F", "7M", "16F", ""]),
   ("M1-5", ["26M", "27M", "36F", "37F", "38F"]),
   ("M2-2", ["1M", "22F", "", "", ""]),
   ("M2-3", ["4M", "8F", "34F", "", ""]),
   ("M2-4", ["12F", "17F", "23F", "25M", ""]),
   ("M2-5", ["21M", "28M", "35F", "39F", "40F"])]

/-- The `duplicatesSet` (lines 105-126): sample labels whose profiles match
another sample's profile; rows with these labels are dropped. -/
def duplicatesSet : List String :=
  ["Mock_4", "Mock_8", "Mock_17", "Mock_19", "Mock_22_EC", "Mock_22_SF",
   "Mock_23_EC", "Mock_23_SF", "Mock_24_EC", "Mock_24_SF", "Mock_26_A",
   "Mock_26_B", "Mock_27_A", "FD_1", "FD_4", "FD_6", "FD_15", "FD_19",
   "FD_20", "FD_21B", "FD_33B"]

/-- First-match association list lookup: the embedding of a Python dict
access `d[k]` returning `none` where Python raises `KeyError`. -/
def dictLookup {β : Type} (k : String) : List (String × β) → Option β
  | [] => none
  | p :: ps => if p.1 = k then some p.2 else dictLookup k ps

/-- `contributorsList` (lines 129-135): builds the composite mixture code and
looks it up, returning the all-empty 5-slot list on a `KeyError`. -/
def contributorsList (mix_num contributors : String) : List String :=
  match dictLookup (mix_num ++ "-" ++ contributors) mixDictionary with
  | some l => l
  | none => ["", "", "", "", ""]

/-- The hard-coded alias rewrite at lines 210-211:
`if result[1] == 'Mock_6': result[1] = '40F'`. -/
def rewriteLabel (s : String) : String :=
  if s = "Mock_6" then "40F" else s

/-- One exported row (`temp` at lines 234-238): the document header fields
(`sampleData`), the classification, the lowest DNA amount, and the three
fields of the (possibly rewritten) `result` triple. -/
structure ClassifiedRecord where
  sampleData : List String
  trueOrNon : String
  lowestDNA : Rat
  resCaseNumber : String
  resSample : String
  resLr : Rat
deriving DecidableEq, Repr

/-- Assembles the record appended at lines 234-238 for one comparison row,
with the label rewritten and the classification from lines 224-229. -/
def mkRecord (contrib_list sampleData : List String) (lowestDNA : Rat)
    (r : StdResult) : ClassifiedRecord :=
  { sampleData := sampleData
    trueOrNon := if rewriteLabel r.sample ∈ contrib_list then "True"
                 else "Non-Contributor"
    lowestDNA := lowestDNA
    resCaseNumber := r.caseNumber
    resSample := rewriteLabel r.sample
    resLr := r.lr }

/-- The per-document result loop (lines 199-238): duplicate-set exclusion,
hard-coded `'40F'` exclusion, `Mock_6 → 40F` alias rewrite, first-occurrence
dedup via `alreadyAppendedSet` (the `seen` argument), and the LR/contributor
inclusion filter. The `seen` set is extended before the inclusion filter is
evaluated, exactly as in the source. -/
def processResults (contrib_list sampleData : List String) (lowestDNA : Rat) :
    List StdResult → List String → List ClassifiedRecord
  | [], _ => []
  | r :: rs, seen =>
    if r.sample ∈ duplicatesSet then
      processResults contrib_list sampleData lowestDNA rs seen
    else if r.sample = "40F" then
      processResults contrib_list sampleData lowestDNA rs seen
    else if rewriteLabel r.sample ∈ seen then
      processResults contrib_list sampleData lowestDNA rs seen
    else if LRCUTOFF < r.lr ∨ rewriteLabel r.sample ∈ contrib_list then
      mkRecord contrib_list sampleData lowestDNA r ::
        processResults contrib_list sampleData lowestDNA rs
          (rewriteLabel r.sample :: seen)
    else
      processResults contrib_list sampleData lowestDNA rs
        (rewriteLabel r.sample :: seen)

/-- The embedding of Python `str.split(c)`: splits a character list at every
occurrence of the separator, keeping empty pieces; the result is nonempty. -/
def pySplit (c : Char) : List Char → List (List Char)
  | [] => [[]]
  | x :: xs =>
    match pySplit c xs with
    | [] => [[]]
    | g :: gs => if x = c then [] :: g :: gs else (x :: g) :: gs

/-- The embedding of the Python substring test `pat in s`. -/
def containsSub (pat l : List Char) : Bool :=
  l.tails.any (fun t => pat.isPrefixOf t)

/-- The fields of one `results.xml` document that the extractor reads:
the `databaseSearchResults` marker, the scalar header fields, and the list
of `stdResult` comparison elements. `caseNotes` is optional (lines 171-175). -/
structure XMLDoc where
  isDBSearch : Bool
  caseNumber : String
  sampleId : String
  caseNotes : Option String
  seed : String
  contributors : String
  stdResults : List StdResult
deriving DecidableEq, Repr

/-- The exceptions `parseResultsXMLFile` can raise: the explicit `Exception`
for a non-DB-search file (line 161), the `IndexError` from
`sampleID.split('_')[1]` (line 169), and the `IndexError`/`LookupError` from
the empty auxiliary-table selection at line 194. -/
inductive ParseErr where
  | formatError
  | indexError
  | lookupError
deriving DecidableEq, Repr

/-- `parseResultsXMLFile` (lines 139-241): verifies the DB-search marker,
assembles the header `sampleData`, derives the true-contributor count from
the second underscore token of the sample id, resolves the contributor list
(special-casing single-source ids containing `SS`), looks up the lowest DNA
amount in the auxiliary table `decon`, and runs the comparison rows through
the normalization loop. Errors are modelled with `Except`. -/
def parseResultsXMLFile (decon : List (String × Rat)) (doc : XMLDoc) :
    Except ParseErr (List ClassifiedRecord) :=
  if doc.isDBSearch = false then .error .formatError else
  match pySplit '_' doc.sampleId.toList with
  | t0 :: t1 :: rest =>
    let mixNumber := t0.asString
    let trueContributorCount :=
      toString ((t1.filter (fun c => c = '-')).length + 1)
    let contrib_list :=
      if containsSub "SS".toList mixNumber.toList then
        [((pySplit ' ' ((t1 :: rest).getLastD [])).headD []).asString,
         "", "", "", ""]
      else contributorsList mixNumber trueContributorCount
    let sampleData :=
      ["DB Search", doc.caseNumber, doc.sampleId, doc.caseNotes.getD "",
       doc.seed, doc.contributors, trueContributorCount] ++ contrib_list
    match dictLookup doc.sampleId decon with
    | none => .error .lookupError
    | some lowest_DNA =>
      .ok (processResults contrib_list sampleData lowest_DNA doc.stdResults [])
  | _ => .error .indexError

/-- The loop of `main` (lines 287-296): extracts every document in order into
one flat array; any exception escapes the loop and aborts the run before the
export step, so a failing run is modelled as an `Except.error` with no
records at all. -/
def runAll (decon : List (String × Rat)) : List XMLDoc →
    Except ParseErr (List ClassifiedRecord)
  | [] => .ok []
  | d :: ds => do
    let recs ← parseResultsXMLFile decon d
    let rest ← runAll decon ds
    return recs ++ rest

/-- The lowest-DNA-amount derivation (lines 66-73): the minimum of a row's
strictly positive amounts, or `0` when the `min` of the empty filter raises
`ValueError`. -/
def lowestPositive (xs : List Rat) : Rat :=
  match (xs.filter (fun i => 0 < i)).min? with
  | some m => m
  | none => 0

/-- The column list of the exported data frame (lines 248-253). -/
def csvColumns : List String :=
  ["Run Type", "Case Number", "Sample ID", "Case Notes", "Seed",
   "Contributors", "True Contributors", "Contributor 1", "Contributor 2",
   "Contributor 3", "Contributor 4", "Contributor 5", "True/Non",
   "Template RFU", "Profile Type", "Profile ID", "LR"]

/-- Projects a `ClassifiedRecord` back to the comparison triple it carries,
used to feed the normalizer's own output back into it. -/
def toStd (rec : ClassifiedRecord) : StdResult :=
  ⟨rec.resCaseNumber, rec.resSample, rec.resLr⟩

/-- Unfolding equation for the normalization loop on a nonempty row list. -/
theorem processResults_cons (cl sd : List String) (dna : Rat) (r : StdResult)
    (rs : List StdResult) (seen : List String) :
    processResults cl sd dna (r :: rs) seen =
      if r.sample ∈ duplicatesSet then processResults cl sd dna rs seen
      else if r.sample = "40F" then processResults cl sd dna rs seen
      else if rewriteLabel r.sample ∈ seen then processResults cl sd dna rs seen
      else if LRCUTOFF < r.lr ∨ rewriteLabel r.sample ∈ cl then
        mkRecord cl sd dna r ::
          processResults cl sd dna rs (rewriteLabel r.sample :: seen)
      else processResults cl sd dna rs (rewriteLabel r.sample :: seen) := rfl

/-- Rewriting a label twice is the same as rewriting it once. -/
theorem rewriteLabel_rewriteLabel (s : String) :
    rewriteLabel (rewriteLabel s) = rewriteLabel s := by
  rcases eq_or_ne s "Mock_6" with h | h
  · subst h; rfl
  · simp [rewriteLabel, h]

/-- Every record the loop emits carries a label that was not yet in the
seen set the loop was started with. -/
theorem resSample_not_mem_seen (cl sd : List String) (dna : Rat)
    (rs : List StdResult) :
    ∀ (seen : List String) (rec : ClassifiedRecord),
      rec ∈ processResults cl sd dna rs seen → rec.resSample ∉ seen := by
  induction rs with
  | nil => intro seen rec h; simp [processResults] at h
  | cons r rs ih =>
    intro seen rec h
    rw [processResults_cons] at h
    split_ifs at h with h1 h2 h3 h4
    · exact ih seen rec h
    · exact ih seen rec h
    · exact ih seen rec h
    · rcases List.mem_cons.mp h with hrec | hrec
      · subst hrec
        simpa [mkRecord] using h3
      · intro hs
        exact ih _ rec hrec (List.mem_cons_of_mem _ hs)
    · intro hs
      exact ih _ rec h (List.mem_cons_of_mem _ hs)

/-- Every record the loop emits is the assembled record of its own
comparison triple, carries a label outside the duplicate set and distinct
from the alias source, and satisfies the inclusion condition. -/
theorem processResults_shape (cl sd : List String) (dna : Rat)
    (rs : List StdResult) :
    ∀ (seen : List String) (rec : ClassifiedRecord),
      rec ∈ processResults cl sd dna rs seen →
      rec = mkRecord cl sd dna (toStd rec) ∧
      rec.resSample ∉ duplicatesSet ∧ rec.resSample ≠ "Mock_6" ∧
      (LRCUTOFF < rec.resLr ∨ rec.resSample ∈ cl) := by
  induction rs with
  | nil => intro seen rec h; simp [processResults] at h
  | cons r rs ih =>
    intro seen rec h
    rw [processResults_cons] at h
    split_ifs at h with h1 h2 h3 h4
    · exact ih seen rec h
    · exact ih seen rec h
    · exact ih seen rec h
    · rcases List.mem_cons.mp h with hrec | hrec
      · subst hrec
        refine ⟨?_, ?_, ?_, ?_⟩
        · simp [mkRecord, toStd, rewriteLabel_rewriteLabel]
        · rcases eq_or_ne r.sample "Mock_6" with hm | hm
          · simp only [mkRecord, hm]
            decide
          · simpa [mkRecord, rewriteLabel, hm] using h1
        · rcases eq_or_ne r.sample "Mock_6" with hm | hm
          · simp only [mkRecord, hm]
            decide
          · simp [mkRecord, rewriteLabel, hm]
        · simpa [mkRecord] using h4
      · exact ih _ rec hrec
    · exact ih _ rec h

/-- The labels of the records the loop emits are pairwise distinct. -/
theorem processResults_labels_nodup (cl sd : List String) (dna : Rat)
    (rs : List StdResult) :
    ∀ seen : List String,
      ((processResults cl sd dna rs seen).map
        (fun rec => rec.resSample)).Nodup := by
  induction rs with
  | nil => intro seen; simp [processResults]
  | cons r rs ih =>
    intro seen
    rw [processResults_cons]
    split_ifs with h1 h2 h3 h4
    · exact ih seen
    · exact ih seen
    · exact ih seen
    · simp only [List.map_cons, List.nodup_cons]
      constructor
      · intro hmem
        rcases List.mem_map.mp hmem with ⟨rec, hrec, hlabel⟩
        have hns := resSample_not_mem_seen cl sd dna rs _ rec hrec
        apply hns
        rw [show rec.resSample = rewriteLabel r.sample by
              simpa [mkRecord] using hlabel]
        exact List.mem_cons_self _ _
      · exact ih _
    · exact ih _

/-- A row whose rewritten label is already in the seen set contributes
nothing, wherever it sits in the remaining row list. -/
theorem processResults_drop_mem (cl sd : List String) (dna : Rat)
    (r2 : StdResult) (post : List StdResult) :
    ∀ (mid : List StdResult) (seen : List String),
      rewriteLabel r2.sample ∈ seen →
      processResults cl sd dna (mid ++ r2 :: post) seen =
      processResults cl sd dna (mid ++ post) seen := by
  intro mid
  induction mid with
  | nil =>
    intro seen hmem
    simp only [List.nil_append]
    rw [processResults_cons]
    by_cases h1 : r2.sample ∈ duplicatesSet
    · rw [if_pos h1]
    · rw [if_neg h1]
      by_cases h2 : r2.sample = "40F"
      · rw [if_pos h2]
      · rw [if_neg h2, if_pos hmem]
  | cons m mid ih =>
    intro seen hmem
    simp only [List.cons_append]
    rw [processResults_cons, processResults_cons]
    by_cases h1 : m.sample ∈ duplicatesSet
    · rw [if_pos h1, if_pos h1]
      exact ih seen hmem
    · rw [if_neg h1, if_neg h1]
      by_cases h2 : m.sample = "40F"
      · rw [if_pos h2, if_pos h2]
        exact ih seen hmem
      · rw [if_neg h2, if_neg h2]
        by_cases h3 : rewriteLabel m.sample ∈ seen
        · rw [if_pos h3, if_pos h3]
          exact ih seen hmem
        · rw [if_neg h3, if_neg h3]
          by_cases h4 : LRCUTOFF < m.lr ∨ rewriteLabel m.sample ∈ cl
          · rw [if_pos h4, if_pos h4, ih _ (List.mem_cons_of_mem _ hmem)]
          · rw [if_neg h4, if_neg h4]
            exact ih _ (List.mem_cons_of_mem _ hmem)

/-- Splitting at a separator that does not occur returns the whole input as
the single piece. -/
theorem pySplit_eq_single (c : Char) (l : List Char) (h : c ∉ l) :
    pySplit c l = [l] := by
  induction l with
  | nil => rfl
  | cons x xs ih =>
    have hx : x ≠ c := fun hxc => h (hxc ▸ List.mem_cons_self _ _)
    have hxs : c ∉ xs := fun hc => h (List.mem_cons_of_mem _ hc)
    simp [pySplit, ih hxs, hx]

/-- A successful association-list lookup returns the value of an entry. -/
theorem dictLookup_mem {β : Type} (k : String) (d : List (String × β)) (v : β)
    (h : dictLookup k d = some v) : (k, v) ∈ d := by
  induction d with
  | nil => simp [dictLookup] at h
  | cons p ps ih =>
    rw [dictLookup] at h
    split_ifs at h with hp
    · obtain rfl := Option.some.inj h
      rw [← hp]
      exact (by simp : (p.1, p.2) ∈ p :: ps)
    · exact List.mem_cons_of_mem _ (ih h)

/-- A record list that already satisfies every invariant the loop enforces,
with no label equal to the excluded `40F`, is a fixed point of the loop. -/
theorem processResults_fixed (cl sd : List String) (dna : Rat)
    (recs : List ClassifiedRecord) :
    ∀ seen : List String,
      (∀ rec ∈ recs,
        rec.resSample ∉ duplicatesSet ∧ rec.resSample ≠ "40F" ∧
        rec.resSample ≠ "Mock_6" ∧ rec.resSample ∉ seen ∧
        (LRCUTOFF < rec.resLr ∨ rec.resSample ∈ cl) ∧
        rec = mkRecord cl sd dna (toStd rec)) →
      ((recs.map (fun rec => rec.resSample)).Nodup) →
      processResults cl sd dna (recs.map toStd) seen = recs := by
  induction recs with
  | nil => intro seen _ _; rfl
  | cons rec recs ih =>
    intro seen hall hnodup
    obtain ⟨hdup, h40, hmock, hseen, hcond, hmk⟩ :=
      hall rec (List.mem_cons_self _ _)
    have hrl : rewriteLabel rec.resSample = rec.resSample := by
      simp [rewriteLabel, hmock]
    simp only [List.map_cons, List.nodup_cons] at hnodup
    simp only [List.map_cons]
    rw [processResults_cons]
    simp only [toStd, hrl]
    rw [if_neg hdup, if_neg h40, if_neg hseen, if_pos hcond]
    have hmk' : mkRecord cl sd dna ⟨rec.resCaseNumber, rec.resSample,
        rec.resLr⟩ = rec := hmk.symm
    rw [hmk']
    have htail : processResults cl sd dna (recs.map toStd)
        (rec.resSample :: seen) = recs := by
      apply ih
      · intro rec2 h2
        obtain ⟨a, b, c, d, e, f⟩ := hall rec2 (List.mem_cons_of_mem _ h2)
        refine ⟨a, b, c, ?_, e, f⟩
        intro hm
        rcases List.mem_cons.mp hm with heq | hm2
        · apply hnodup.1
          rw [← heq]
          exact List.mem_map_of_mem _ h2
        · exact d hm2
      · exact hnodup.2
    rw [htail]

/-- Unfolding equation for the run loop of `main` on a nonempty document
list: the first document is extracted, then the rest of the run. -/
theorem runAll_cons (decon : List (String × Rat)) (d : XMLDoc)
    (ds : List XMLDoc) :
    runAll decon (d :: ds) = (parseResultsXMLFile decon d).bind
      (fun recs => (runAll decon ds).bind
        (fun rest => .ok (recs ++ rest))) := rfl

/-- Claim C1: a comparison row that passes the duplicate-set exclusion, the
reserved `40F` exclusion and the first-occurrence dedup is retained exactly
when its LR is strictly greater than the cutoff or its (possibly rewritten)
label is in the resolved contributor list; in particular a true-contributor
row is retained for every LR value. -/
theorem c1_inclusion_filter (cl sd : List String) (dna : Rat) (r : StdResult)
    (rs : List StdResult) (seen : List String)
    (h1 : r.sample ∉ duplicatesSet) (h2 : r.sample ≠ "40F")
    (h3 : rewriteLabel r.sample ∉ seen) :
    mkRecord cl sd dna r ∈ processResults cl sd dna (r :: rs) seen ↔
      (LRCUTOFF < r.lr ∨ rewriteLabel r.sample ∈ cl) := by
  rw [processResults_cons, if_neg h1, if_neg h2, if_neg h3]
  by_cases h4 : LRCUTOFF < r.lr ∨ rewriteLabel r.sample ∈ cl
  · rw [if_pos h4]
    exact iff_of_true (List.mem_cons_self _ _) h4
  · rw [if_neg h4]
    refine iff_of_false ?_ h4
    intro hmem
    exact resSample_not_mem_seen cl sd dna rs _ _ hmem (by simp [mkRecord])

/-- Witness for C1 at a true-contributor row with LR below the cutoff. -/
theorem c1_witness :
    (mkRecord ["9F"] [] 0 ⟨"c", "9F", -5⟩ ∈
      processResults ["9F"] [] 0 [⟨"c", "9F", -5⟩] [] ↔
      (LRCUTOFF < (-5 : Rat) ∨ rewriteLabel "9F" ∈ ["9F"])) :=
  c1_inclusion_filter ["9F"] [] 0 ⟨"c", "9F", -5⟩ [] []
    (by decide) (by decide) (by decide)

/-- Claim C2 (amended): the normalizer is idempotent on every input whose
output contains no record labelled `40F`; a `Mock_6` row is retained with
its label rewritten to `40F`, which a second pass drops unconditionally,
so the claim fails as stated. -/
theorem c2_idempotent_when_no_40F_label (cl sd : List String) (dna : Rat)
    (rs : List StdResult)
    (h40 : ∀ rec ∈ processResults cl sd dna rs [], rec.resSample ≠ "40F") :
    processResults cl sd dna
      ((processResults cl sd dna rs []).map toStd) [] =
    processResults cl sd dna rs [] := by
  apply processResults_fixed
  · intro rec hrec
    obtain ⟨hmk, hdup, hmock, hcond⟩ :=
      processResults_shape cl sd dna rs [] rec hrec
    exact ⟨hdup, h40 rec hrec, hmock, by simp, hcond, hmk⟩
  · exact processResults_labels_nodup cl sd dna rs []

/-- Witness for C2 on a one-row input whose output is `40F`-free. -/
theorem c2_witness :
    processResults ["9F"] [] 0
      ((processResults ["9F"] [] 0 [⟨"c", "9F", 2⟩] []).map toStd) [] =
    processResults ["9F"] [] 0 [⟨"c", "9F", 2⟩] [] :=
  c2_idempotent_when_no_40F_label ["9F"] [] 0 [⟨"c", "9F", 2⟩] (by decide)

/-- Counterexample to C2 as stated: one `Mock_6` row above the cutoff is
retained with label `40F`, and reprocessing the output drops it. -/
theorem c2_counterexample :
    processResults [] [] 0
      ((processResults [] [] 0 [⟨"c", "Mock_6", 2⟩] []).map toStd) [] ≠
    processResults [] [] 0 [⟨"c", "Mock_6", 2⟩] [] := by decide

/-- Claim C6: first-occurrence-wins dedup — a later row whose label equals
(after alias resolution) that of an earlier row contributes nothing: the
output is the same as if the later row were absent. -/
theorem c6_first_occurrence_wins (cl sd : List String) (dna : Rat)
    (r1 r2 : StdResult) (mid post : List StdResult) (seen : List String)
    (h1 : r1.sample ∉ duplicatesSet) (h2 : r1.sample ≠ "40F")
    (heq : rewriteLabel r2.sample = rewriteLabel r1.sample) :
    processResults cl sd dna (r1 :: (mid ++ r2 :: post)) seen =
    processResults cl sd dna (r1 :: (mid ++ post)) seen := by
  rw [processResults_cons, processResults_cons, if_neg h1, if_neg h1,
    if_neg h2, if_neg h2]
  by_cases h3 : rewriteLabel r1.sample ∈ seen
  · rw [if_pos h3, if_pos h3]
    exact processResults_drop_mem cl sd dna r2 post mid seen
      (by rw [heq]; exact h3)
  · rw [if_neg h3, if_neg h3]
    by_cases h4 : LRCUTOFF < r1.lr ∨ rewriteLabel r1.sample ∈ cl
    · rw [if_pos h4, if_pos h4,
        processResults_drop_mem cl sd dna r2 post mid _
          (by rw [heq]; exact List.mem_cons_self _ _)]
    · rw [if_neg h4, if_neg h4]
      exact processResults_drop_mem cl sd dna r2 post mid _
        (by rw [heq]; exact List.mem_cons_self _ _)

/-- Witness for C6 on label `X` with LR `2` then LR `5`, both above the
cutoff: the output equals that of the first row alone. -/
theorem c6_witness :
    processResults ["9F"] [] 0 [⟨"c", "X", 2⟩, ⟨"c", "X", 5⟩] [] =
    processResults ["9F"] [] 0 [⟨"c", "X", 2⟩] [] :=
  c6_first_occurrence_wins ["9F"] [] 0 ⟨"c", "X", 2⟩ ⟨"c", "X", 5⟩ [] [] []
    (by decide) (by decide) (by decide)

/-- Claim C7: a row whose label is in the duplicate set is dropped
unconditionally — the output is the same as if the row were absent, for
every LR value and every contributor list (so also when the label would
have been classified a true contributor). -/
theorem c7_duplicate_set_excluded (cl sd : List String) (dna : Rat)
    (r : StdResult) (rest : List StdResult) (seen : List String)
    (h : r.sample ∈ duplicatesSet) :
    processResults cl sd dna (r :: rest) seen =
      processResults cl sd dna rest seen := by
  rw [processResults_cons, if_pos h]

/-- Witness for C7 on `Mock_4` with LR `10` and a contributor list that
contains `Mock_4` itself. -/
theorem c7_witness :
    processResults ["Mock_4"] [] 0 [⟨"c", "Mock_4", 10⟩] [] =
      processResults ["Mock_4"] [] 0 [] [] :=
  c7_duplicate_set_excluded ["Mock_4"] [] 0 ⟨"c", "Mock_4", 10⟩ [] []
    (by decide)

/-- Claim C9: the seen set is extended before the inclusion filter, so a
first occurrence dropped by the filter still marks its label as seen; on
the concrete input `X` with LR `-5` then LR `5` the label yields no record
at all even though the second LR exceeds the cutoff. -/
theorem c9_seen_marked_before_filter (cl sd : List String) (dna : Rat)
    (r : StdResult) (rest : List StdResult) (seen : List String)
    (h1 : r.sample ∉ duplicatesSet) (h2 : r.sample ≠ "40F")
    (h3 : rewriteLabel r.sample ∉ seen) (h4 : ¬ LRCUTOFF < r.lr)
    (h5 : rewriteLabel r.sample ∉ cl) :
    processResults cl sd dna (r :: rest) seen =
      processResults cl sd dna rest (rewriteLabel r.sample :: seen) ∧
    processResults ["9F"] [] 0 [⟨"c", "X", -5⟩, ⟨"c", "X", 5⟩] [] = [] := by
  constructor
  · rw [processResults_cons, if_neg h1, if_neg h2, if_neg h3,
      if_neg (not_or.mpr ⟨h4, h5⟩)]
  · decide

/-- Witness for C9 at the first `X` row with LR `-5`. -/
theorem c9_witness :
    (processResults ["9F"] [] 0 [⟨"c", "X", -5⟩, ⟨"c", "X", 5⟩] [] =
      processResults ["9F"] [] 0 [⟨"c", "X", 5⟩]
        (rewriteLabel "X" :: []) ∧
    processResults ["9F"] [] 0 [⟨"c", "X", -5⟩, ⟨"c", "X", 5⟩] [] = []) :=
  c9_seen_marked_before_filter ["9F"] [] 0 ⟨"c", "X", -5⟩ [⟨"c", "X", 5⟩] []
    (by decide) (by decide) (by decide) (by decide) (by decide)

/-- Claim C5: the derived lowest DNA amount is the minimum of the strictly
positive amounts — it is zero when no amount is positive, and otherwise it
is a positive element of the row that bounds every positive element from
below; on the spec's examples it is `3` and `0`. -/
theorem c5_lowest_positive_amount :
    (∀ xs : List Rat,
      (lowestPositive xs = 0 ∧ ∀ y ∈ xs, ¬ 0 < y) ∨
      (lowestPositive xs ∈ xs ∧ 0 < lowestPositive xs ∧
        ∀ y ∈ xs, 0 < y → lowestPositive xs ≤ y)) ∧
    lowestPositive [0, -1, 5, 3, 0] = 3 ∧
    lowestPositive [0, 0, 0, 0, 0] = 0 := by
  refine ⟨?_, by decide, by decide⟩
  intro xs
  rcases h : (xs.filter (fun i => 0 < i)).min? with _ | m
  · left
    have h0 : lowestPositive xs = 0 := by
      unfold lowestPositive
      rw [h]
    refine ⟨h0, ?_⟩
    rw [List.min?_eq_none_iff, List.filter_eq_nil_iff] at h
    intro y hy hpos
    exact h y hy (by simpa using hpos)
  · right
    have hm : lowestPositive xs = m := by
      unfold lowestPositive
      rw [h]
    have hmem : m ∈ xs.filter (fun i => 0 < i) :=
      List.min?_mem (fun a b => min_choice a b) h
    have hmem' := List.mem_filter.mp hmem
    have hle : ∀ b ∈ xs.filter (fun i => 0 < i), m ≤ b :=
      (List.le_min?_iff (fun a b c => le_min_iff) h).mp (le_refl m)
    refine ⟨hm ▸ hmem'.1, hm ▸ (by simpa using hmem'.2), ?_⟩
    intro y hy hpos
    rw [hm]
    exact hle y (List.mem_filter.mpr ⟨hy, by simpa using hpos⟩)

/-- Witness for C5: the theorem applied to the first example row. -/
theorem c5_witness :
    lowestPositive [0, -1, 5, 3, 0] = 3 :=
  c5_lowest_positive_amount.2.1

/-- Claim C8: the contributor-set resolver always returns a 5-slot list; on
the known key `M1-3` it returns the table entry and on the absent key
`M9-9` it returns the all-empty list instead of failing. -/
theorem c8_resolver_five_slots :
    (∀ m c : String, (contributorsList m c).length = 5) ∧
    contributorsList "M1" "3" = ["9F", "21F", "22M", "", ""] ∧
    contributorsList "M9" "9" = ["", "", "", "", ""] := by
  refine ⟨?_, by decide, by decide⟩
  intro m c
  unfold contributorsList
  rcases h : dictLookup (m ++ "-" ++ c) mixDictionary with _ | v
  · rfl
  · have hv : (m ++ "-" ++ c, v) ∈ mixDictionary := dictLookup_mem _ _ _ h
    have hall : ∀ p ∈ mixDictionary, p.2.length = 5 := by decide
    exact hall _ hv

/-- Claim C3 (amended): a document whose sample identifier is absent from
the auxiliary table fails extraction with the lookup error (no records are
produced for it), and that error aborts the whole run: no document after it
is processed either. -/
theorem c3_lookup_error_aborts_run (decon : List (String × Rat)) (d : XMLDoc)
    (docs : List XMLDoc) (t0 t1 : List Char) (rest : List (List Char))
    (h1 : d.isDBSearch = true)
    (h2 : pySplit '_' d.sampleId.toList = t0 :: t1 :: rest)
    (h3 : dictLookup d.sampleId decon = none) :
    parseResultsXMLFile decon d = .error .lookupError ∧
    runAll decon (d :: docs) = .error .lookupError := by
  have hparse : parseResultsXMLFile decon d = .error .lookupError := by
    unfold parseResultsXMLFile
    rw [if_neg (by simp [h1]), h2]
    simp only [h3]
  refine ⟨hparse, ?_⟩
  rw [runAll_cons, hparse]
  rfl

/-- Witness for C3 on a document with sample id `B_1` against an auxiliary
table containing only `A_1`, followed by a second document. -/
theorem c3_witness :
    parseResultsXMLFile [("A_1", 5)] ⟨true, "c", "B_1", none, "1", "1", []⟩ =
      .error .lookupError ∧
    runAll [("A_1", 5)]
      [⟨true, "c", "B_1", none, "1", "1", []⟩,
       ⟨true, "c", "A_1", none, "1", "1", [⟨"p", "9F", 2⟩]⟩] =
      .error .lookupError :=
  c3_lookup_error_aborts_run [("A_1", 5)] ⟨true, "c", "B_1", none, "1", "1", []⟩
    [⟨true, "c", "A_1", none, "1", "1", [⟨"p", "9F", 2⟩]⟩]
    ['B'] ['1'] [] (by decide) (by decide) (by decide)

/-- Counterexample to C3 as stated: with the failing document first, the
whole run errors and yields no records at all, although the second document
alone extracts to a nonempty record list — so documents after the failing
one are not processed. -/
theorem c3_counterexample :
    runAll [("A_1", 5)]
      [⟨true, "c", "B_1", none, "1", "1", []⟩,
       ⟨true, "c", "A_1", none, "1", "1", [⟨"p", "9F", 2⟩]⟩] =
      .error .lookupError ∧
    parseResultsXMLFile [("A_1", 5)]
      ⟨true, "c", "A_1", none, "1", "1", [⟨"p", "9F", 2⟩]⟩ =
      .ok [⟨["DB Search", "c", "A_1", "", "1", "1", "1", "", "", "", "", ""],
            "Non-Contributor", 5, "p", "9F", 2⟩] :=
  ⟨by rfl, by rfl⟩

/-- Claim C4: the exported schema of `makeDataFrameAndExport` has no
convergence-diagnostic (Gelman Rubin) column at all, and the record
extracted from a legacy-style document carries exactly one field per column
with no `0.0` diagnostic inserted — contradicting the docstring at lines
146-148, which promises a `'0.0'` in a Gelman Rubin column. -/
theorem c4_no_gelman_rubin_field :
    "Gelman Rubin" ∉ csvColumns ∧ csvColumns.length = 17 ∧
    parseResultsXMLFile [("M1_9F-21F-22M", 50)]
      ⟨true, "case1", "M1_9F-21F-22M", none, "7", "3", [⟨"c", "9F", 2⟩]⟩ =
      .ok [⟨["DB Search", "case1", "M1_9F-21F-22M", "", "7", "3", "3",
             "9F", "21F", "22M", "", ""], "True", 50, "c", "9F", 2⟩] ∧
    ["DB Search", "case1", "M1_9F-21F-22M", "", "7", "3", "3",
     "9F", "21F", "22M", "", ""].length + 5 = csvColumns.length :=
  ⟨by decide, by decide, by rfl, by decide⟩

/-- Claim C10: a document whose sample identifier contains no underscore
fails extraction with the index error raised while deriving the
true-contributor count, before any record is produced. -/
theorem c10_no_underscore_index_error (decon : List (String × Rat))
    (doc : XMLDoc) (h1 : doc.isDBSearch = true)
    (h2 : '_' ∉ doc.sampleId.toList) :
    parseResultsXMLFile decon doc = .error .indexError := by
  unfold parseResultsXMLFile
  rw [if_neg (by simp [h1]), pySplit_eq_single '_' doc.sampleId.toList h2]

/-- Witness for C10 on the underscore-free sample id `ABC`. -/
theorem c10_witness :
    parseResultsXMLFile [] ⟨true, "c", "ABC", none, "1", "1", []⟩ =
      .error .indexError :=
  c10_no_underscore_index_error [] ⟨true, "c", "ABC", none, "1", "1", []⟩
    (by decide) (by decide)
